import Mathlib

/-!
Verification of `src/common/system/system_linux.cpp` (Colobot: Gold Edition),
the Linux platform-services shim: timestamp arithmetic, dialog result
mapping, save-directory resolution, environment lookup and `xdg-open`
invocation.

Modelling conventions:
* `struct timespec` fields (`tv_sec`, `tv_nsec`) and C++ `long long`
  arithmetic are modelled with unbounded `Int`; signed overflow is
  undefined behaviour in C++, so the defined behaviour of the source
  coincides with `Int` arithmetic on every input where it is defined.
* C++ integer division and remainder truncate toward zero, which is
  `Int.tdiv` and `Int.tmod`.
* The interpolation fraction is a C `float`, and `delta *= i` (line 89)
  converts `delta` to binary32, multiplies in binary32, and truncates
  the product back to `long long`; the conversion and the product round
  to nearest, ties to even.  This is modelled exactly over dyadic
  rationals (`floatScale`): every value involved is an integer pair
  denoting `m * 2 ^ e`, and `roundF32` performs the IEEE 754 binary32
  rounding, including subnormals.  Exponent overflow (a product whose
  magnitude rounds to `2 ^ 128`, giving an infinity) and a
  float-to-integer conversion out of the `long long` range lead to
  undefined behaviour in the program at the following conversion and are
  not distinguished by the model.  The fraction parameter ranges over
  all dyadic rationals, a superset of the finite binary32 values;
  counterexamples and witnesses instantiate only genuine binary32
  values (0.0, 0.5, 1.0).
* Calls into the operating system (`system`, `getenv`, the console
  dialog fallback of the base class) are modelled as explicit function
  parameters, and logging as an explicit list of emitted messages, so
  every definition stays executable.
-/

/-- Model of `struct timespec`: seconds and nanoseconds fields. -/
structure Timespec where
  tv_sec : Int
  tv_nsec : Int
deriving DecidableEq, Repr

/-- Model of `SystemTimeStamp` from `system_linux.h`: a wrapped `timespec`. -/
structure SystemTimeStamp where
  clockTime : Timespec
deriving DecidableEq, Repr

/-- The dialog kinds of `SystemDialogType` (`system.h`, used by lines 47-65). -/
inductive SystemDialogType where
  | SDT_INFO
  | SDT_WARNING
  | SDT_ERROR
  | SDT_YES_NO
  | SDT_OK_CANCEL
deriving DecidableEq, Repr

/-- The dialog outcomes of `SystemDialogResult` (`system.h`, used by lines 70-81). -/
inductive SystemDialogResult where
  | SDR_OK
  | SDR_CANCEL
  | SDR_YES
  | SDR_NO
deriving DecidableEq, Repr

open SystemDialogType SystemDialogResult

/-- `CSystemUtilsLinux::TimeStampExactDiff` (lines 104-108):
`(after.nsec - before.nsec) + (after.sec - before.sec) * 1000000000ll`. -/
def TimeStampExactDiff (before after : SystemTimeStamp) : Int :=
  (after.clockTime.tv_nsec - before.clockTime.tv_nsec) +
    (after.clockTime.tv_sec - before.clockTime.tv_sec) * 1000000000

/-- Fuel-based floor of the base-2 logarithm: `log2Fuel fuel n` halves
`n` until it drops below 2, spending one unit of fuel per step, so that
the kernel can evaluate it on literals. -/
def log2Fuel : Nat → Nat → Nat
  | 0, _ => 0
  | fuel + 1, n => if 2 ≤ n then log2Fuel fuel (n / 2) + 1 else 0

/-- Floor of the base-2 logarithm of a positive natural number
(`n` itself is always enough fuel). -/
def floorLog2 (n : Nat) : Nat :=
  log2Fuel n n

/-- Round `m / 2 ^ j` to the nearest integer, ties to even (the IEEE 754
default rounding).  `/` and `%` here are floor division and its
remainder, so `r` lies in `[0, 2 ^ j)` and the scheme is symmetric for
negative `m`. -/
def roundHalfEven (m : Int) (j : Nat) : Int :=
  let d : Int := 2 ^ j
  let q := m / d
  let r := m % d
  if 2 * r < d then q
  else if d < 2 * r then q + 1
  else if q % 2 = 0 then q else q + 1

/-- Round the dyadic value `M * 2 ^ e` to the nearest binary32 value
(round to nearest, ties to even), returned as a pair `(R, t)` denoting
`R * 2 ^ t`.  The target granularity is
`2 ^ max (-149) (log2 |M * 2 ^ e| - 23)`: 24 significand bits for
normal numbers, and the fixed subnormal granularity `2 ^ (-149)` below
them.  A magnitude that would round to `2 ^ 128` or above yields an
infinity in the program, whose subsequent conversion to `long long` is
undefined behaviour; the model keeps the rounded value there. -/
def roundF32 (M e : Int) : Int × Int :=
  if M = 0 then (0, 0)
  else
    let ilog : Int := (floorLog2 M.natAbs : Int) + e
    let t : Int := max (-149) (ilog - 23)
    if t ≤ e then (M * 2 ^ (e - t).toNat, t)
    else (roundHalfEven M (t - e).toNat, t)

/-- Truncate the dyadic value `R * 2 ^ t` toward zero to an integer, as
the C++ float-to-`long long` conversion does (a value outside the
`long long` range is undefined behaviour and not distinguished). -/
def truncDyadic (R t : Int) : Int :=
  if 0 ≤ t then R * 2 ^ t.toNat else R.tdiv (2 ^ (-t).toNat)

/-- The exact value of `(float)delta` for a `long long` `delta`:
binary32 rounding of an integer, whose value is again an integer. -/
def f32OfLongLong (delta : Int) : Int :=
  truncDyadic (roundF32 delta 0).1 (roundF32 delta 0).2

/-- Model of `delta *= i` (line 89): `delta` is converted to binary32,
multiplied by the fraction value `mi * 2 ^ ei` with the product rounded
to binary32 (IEEE multiplication is correctly rounded), and the result
converted back to `long long`, truncating toward zero (the source
comment reads `// truncates`). -/
def floatScale (delta mi ei : Int) : Int :=
  truncDyadic (roundF32 (f32OfLongLong delta * mi) ei).1
    (roundF32 (f32OfLongLong delta * mi) ei).2

/-- `CSystemUtilsLinux::InterpolateTimeStamp` (lines 86-97), with the
fraction given as the dyadic rational `mi * 2 ^ ei` and line 89 modelled
by `floatScale`.  `delta / 1000000000` and `delta % 1000000000` are C++
truncating division and remainder; the final `if` renormalizes only an
overflowing (`>= 1000000000`) nanoseconds field. -/
def InterpolateTimeStamp (a b : SystemTimeStamp) (mi ei : Int) :
    SystemTimeStamp :=
  let delta := floatScale (TimeStampExactDiff a b) mi ei
  let sec := a.clockTime.tv_sec + delta.tdiv 1000000000
  let nsec := a.clockTime.tv_nsec + delta.tmod 1000000000
  if nsec ≥ 1000000000 then
    ⟨⟨sec + 1, nsec - 1000000000⟩⟩
  else
    ⟨⟨sec, nsec⟩⟩

/-- The instant a timestamp denotes, in integer nanoseconds. -/
def totalNanoseconds (t : SystemTimeStamp) : Int :=
  t.clockTime.tv_sec * 1000000000 + t.clockTime.tv_nsec

/-- A timestamp is normalized when its nanoseconds field lies in
`[0, 10^9)`, as produced by `clock_gettime`. -/
def Normalized (t : SystemTimeStamp) : Prop :=
  0 ≤ t.clockTime.tv_nsec ∧ t.clockTime.tv_nsec < 1000000000

instance (t : SystemTimeStamp) : Decidable (Normalized t) := by
  unfold Normalized
  infer_instance

/-- The zenity option string chosen by the `switch` at lines 47-65
(`SDT_INFO` shares the `default` arm). -/
def zenityOptions : SystemDialogType → String
  | SDT_INFO => "--info"
  | SDT_WARNING => "--warning"
  | SDT_ERROR => "--error"
  | SDT_YES_NO => "--question --ok-label=\"Yes\" --cancel-label=\"No\""
  | SDT_OK_CANCEL => "--question --ok-label=\"OK\" --cancel-label=\"Cancel\""

/-- `CSystemUtilsLinux::SystemDialog` (lines 39-84).  The shell is the
parameter `system` (command string to exit code); the base-class console
fallback `ConsoleSystemDialog`, taken when zenity is unavailable, is the
abstract parameter `console`. -/
def SystemDialog (system : String → Int)
    (console : SystemDialogType → String → String → SystemDialogResult)
    (m_zenityAvailable : Bool) (type : SystemDialogType)
    (title message : String) : SystemDialogResult :=
  if !m_zenityAvailable then
    console type title message
  else
    let options := zenityOptions type
    let command :=
      "zenity " ++ options ++ " --text=\"" ++ message ++ "\" --title=\"" ++
        title ++ "\""
    let code := system command
    match type with
    | SDT_YES_NO => if code ≠ 0 then SDR_NO else SDR_YES
    | SDT_OK_CANCEL => if code ≠ 0 then SDR_CANCEL else SDR_OK
    | _ => SDR_OK

/-- `CSystemUtilsLinux::GetEnvVar` (lines 142-151): `getenv` is the
environment, `none` standing for a null pointer; an unset variable
yields the empty string, never an error. -/
def GetEnvVar (getenv : String → Option String) (name : String) : String :=
  match getenv name with
  | some envVar => envVar
  | none => ""

/-- `CSystemUtilsLinux::GetSaveDir` (lines 110-140), non-portable branch.
The base-class default `CSystemUtils::GetSaveDir()` is not under `src/`,
so it is the abstract parameter `defaultSaveDir`. -/
def GetSaveDir (getenv : String → Option String) (defaultSaveDir : String) :
    String :=
  let envXDG_DATA_HOME := GetEnvVar getenv "XDG_DATA_HOME"
  if envXDG_DATA_HOME = "" then
    let envHOME := GetEnvVar getenv "HOME"
    if envHOME = "" then
      defaultSaveDir
    else
      envHOME ++ "/.local/share/colobot"
  else
    envXDG_DATA_HOME ++ "/colobot"

/-- Whether the environment maps `name` to a non-empty value (used only
by `ResolveSaveDirectorySpec`). -/
def IsSetNonEmpty (getenv : String → Option String) (name : String) : Bool :=
  match getenv name with
  | some v => if v = "" then false else true
  | none => false

/-- Save-directory resolution written from the specification text of
claim C4: data-home variable set non-empty, then home variable set
non-empty, then the built-in default. -/
def ResolveSaveDirectorySpec (getenv : String → Option String)
    (defaultSaveDir : String) : String :=
  if IsSetNonEmpty getenv "XDG_DATA_HOME" then
    ((getenv "XDG_DATA_HOME").getD "") ++ "/colobot"
  else if IsSetNonEmpty getenv "HOME" then
    ((getenv "HOME").getD "") ++ "/.local/share/colobot"
  else
    defaultSaveDir

/-- The command string built by `OpenPath` (line 155). -/
def OpenPathCommand (path : String) : String :=
  "xdg-open \"" ++ path ++ "\""

/-- The command string built by `OpenWebsite` (line 166). -/
def OpenWebsiteCommand (url : String) : String :=
  "xdg-open \"" ++ url ++ "\""

/-- `CSystemUtilsLinux::OpenPath` (lines 153-162): the returned boolean
plus the error messages logged, as a pure value. -/
def OpenPath (system : String → Int) (path : String) : Bool × List String :=
  let result := system (OpenPathCommand path)
  if result ≠ 0 then
    (false,
      ["Failed to open path: " ++ path ++ ", error code: " ++
        toString result ++ "\n"])
  else
    (true, [])

/-- `CSystemUtilsLinux::OpenWebsite` (lines 164-173): the returned
boolean plus the error messages logged, as a pure value. -/
def OpenWebsite (system : String → Int) (url : String) : Bool × List String :=
  let result := system (OpenWebsiteCommand url)
  if result ≠ 0 then
    (false,
      ["Failed to open website: " ++ url ++ ", error code: " ++
        toString result ++ "\n"])
  else
    (true, [])

/-- C2: `TimeStampExactDiff before after` is the signed nanosecond
difference `after - before`, and it is positive exactly when `after`
denotes a later instant than `before`. -/
theorem timeStampExactDiff_signed_nanoseconds (a b : SystemTimeStamp) :
    TimeStampExactDiff a b =
      (b.clockTime.tv_sec - a.clockTime.tv_sec) * 1000000000 +
        (b.clockTime.tv_nsec - a.clockTime.tv_nsec) ∧
    (0 < TimeStampExactDiff a b ↔ totalNanoseconds a < totalNanoseconds b) := by
  unfold TimeStampExactDiff totalNanoseconds
  constructor
  · ring
  · constructor <;> intro h <;> nlinarith

/-- `log2Fuel` computes the floor of the base-2 logarithm once the fuel
covers the input. -/
theorem log2Fuel_bounds (fuel : Nat) : ∀ n : Nat, 1 ≤ n → n ≤ fuel →
    2 ^ log2Fuel fuel n ≤ n ∧ n < 2 ^ (log2Fuel fuel n + 1) := by
  induction fuel with
  | zero => intro n h1 h0; omega
  | succ fuel ih =>
    intro n h1 hle
    simp only [log2Fuel]
    by_cases h2 : 2 ≤ n
    · rw [if_pos h2]
      have hrec := ih (n / 2) (by omega) (by omega)
      have hp : 2 ^ (log2Fuel fuel (n / 2) + 1) =
          2 * 2 ^ log2Fuel fuel (n / 2) := by ring
      have hp2 : 2 ^ (log2Fuel fuel (n / 2) + 1 + 1) =
          2 * 2 ^ (log2Fuel fuel (n / 2) + 1) := by ring
      constructor
      · rw [hp]; omega
      · rw [hp2]; omega
    · rw [if_neg h2]
      norm_num
      omega

/-- Bounds characterizing `floorLog2` on positive inputs. -/
theorem floorLog2_bounds (n : Nat) (h : 1 ≤ n) :
    2 ^ floorLog2 n ≤ n ∧ n < 2 ^ (floorLog2 n + 1) :=
  log2Fuel_bounds n n h le_rfl

/-- Rounding a value that is already a multiple of the granularity is
exact. -/
theorem roundHalfEven_exact (m : Int) (j : Nat) (h : (2 : Int) ^ j ∣ m) :
    roundHalfEven m j * 2 ^ j = m := by
  unfold roundHalfEven
  have hd : (0 : Int) < 2 ^ j := by positivity
  have hm : m % (2 : Int) ^ j = 0 := Int.emod_eq_zero_of_dvd h
  dsimp only
  rw [hm, if_pos (by omega : 2 * (0 : Int) < 2 ^ j)]
  exact Int.ediv_mul_cancel h

/-- Truncating the dyadic `x * 2 ^ m * 2 ^ (-m)` recovers `x`. -/
theorem truncDyadic_mul_pow (x : Int) (m : Nat) :
    truncDyadic (x * 2 ^ m) (-(m : Int)) = x := by
  unfold truncDyadic
  rcases Nat.eq_zero_or_pos m with hm | hm
  · subst hm
    norm_num
  · rw [if_neg (by omega)]
    have h1 : (-(-(m : Int))).toNat = m := by omega
    rw [h1]
    exact Int.mul_tdiv_cancel x (by positivity)

/-- A nonzero integer of the form `s * 2 ^ k` with `|s| < 2 ^ 24` is
exactly representable in binary32: rounding it and truncating back is
the identity. -/
theorem roundTripExact (s : Int) (k : Nat) (hs : s.natAbs < 2 ^ 24) :
    truncDyadic (roundF32 (s * 2 ^ k) 0).1 (roundF32 (s * 2 ^ k) 0).2 =
      s * 2 ^ k := by
  by_cases h0 : s = 0
  · subst h0
    norm_num [roundF32, truncDyadic]
  · have h2k : (0 : Int) < 2 ^ k := by positivity
    have hx0 : s * 2 ^ k ≠ 0 := mul_ne_zero h0 h2k.ne'
    have hxabs : (s * 2 ^ k).natAbs = s.natAbs * 2 ^ k := by
      rw [Int.natAbs_mul, Int.natAbs_pow]
      norm_num
    have habs1 : 1 ≤ (s * 2 ^ k).natAbs := Int.natAbs_pos.mpr hx0
    have hlog := floorLog2_bounds (s * 2 ^ k).natAbs habs1
    have hLlt : floorLog2 (s * 2 ^ k).natAbs < 24 + k := by
      have hub : (s * 2 ^ k).natAbs < 2 ^ (24 + k) := by
        rw [hxabs, pow_add]
        exact mul_lt_mul_of_pos_right hs (Nat.pos_pow_of_pos k (by norm_num))
      have := lt_of_le_of_lt hlog.1 hub
      exact (Nat.pow_lt_pow_iff_right (by norm_num)).mp this
    unfold roundF32
    rw [if_neg hx0]
    dsimp only
    set L : Nat := floorLog2 (s * 2 ^ k).natAbs with hL
    rw [show max (-149 : Int) ((L : Int) + 0 - 23) = (L : Int) - 23 by omega]
    by_cases hle : (L : Int) - 23 ≤ 0
    · rw [if_pos hle]
      have hm1 : (0 - ((L : Int) - 23)).toNat = 23 - L := by omega
      have hm2 : (L : Int) - 23 = -(((23 - L : Nat) : Int)) := by omega
      rw [hm1, hm2]
      exact truncDyadic_mul_pow (s * 2 ^ k) (23 - L)
    · rw [if_neg hle]
      have hj : ((L : Int) - 23 - 0).toNat = L - 23 := by omega
      have hjk : L - 23 ≤ k := by omega
      have hdvd : (2 : Int) ^ (L - 23) ∣ s * 2 ^ k :=
        Dvd.dvd.mul_left (pow_dvd_pow 2 hjk) s
      have hre := roundHalfEven_exact (s * 2 ^ k) (L - 23) hdvd
      rw [hj]
      unfold truncDyadic
      rw [if_pos (by omega : (0 : Int) ≤ (L : Int) - 23)]
      rw [show ((L : Int) - 23).toNat = L - 23 by omega]
      exact hre

/-- A `long long` of the form `s * 2 ^ k` with `|s| < 2 ^ 24` converts
to binary32 without rounding error. -/
theorem f32OfLongLong_exact (s : Int) (k : Nat) (hs : s.natAbs < 2 ^ 24) :
    f32OfLongLong (s * 2 ^ k) = s * 2 ^ k := by
  unfold f32OfLongLong
  exact roundTripExact s k hs

/-- Scaling a binary32-representable delta by the fraction 1.0 is the
identity. -/
theorem floatScale_one_exact (s : Int) (k : Nat) (hs : s.natAbs < 2 ^ 24) :
    floatScale (s * 2 ^ k) 1 0 = s * 2 ^ k := by
  unfold floatScale
  rw [f32OfLongLong_exact s k hs, mul_one]
  exact roundTripExact s k hs

/-- Scaling any delta by the fraction 0.0 yields 0. -/
theorem floatScale_zero (delta ei : Int) : floatScale delta 0 ei = 0 := by
  unfold floatScale
  rw [mul_zero]
  norm_num [roundF32, truncDyadic]

/-- The instant denoted by an interpolated timestamp is the instant of
`a` plus the scaled delta of line 89: the truncating split of `delta`
into seconds and nanoseconds and the final renormalization step both
preserve the total. -/
theorem totalNanoseconds_interpolate
    (a b : SystemTimeStamp) (mi ei : Int) :
    totalNanoseconds (InterpolateTimeStamp a b mi ei) =
      totalNanoseconds a + floatScale (TimeStampExactDiff a b) mi ei := by
  obtain ⟨⟨as, ans⟩⟩ := a
  obtain ⟨⟨bs, bns⟩⟩ := b
  unfold InterpolateTimeStamp totalNanoseconds
  set d := floatScale (TimeStampExactDiff ⟨⟨as, ans⟩⟩ ⟨⟨bs, bns⟩⟩) mi ei
    with hd
  have h := Int.tdiv_add_tmod d 1000000000
  dsimp only
  split <;> dsimp only <;> omega

/-- C5, counterexample: at `a = (0, 0)`, `b = (0, 16777217)` and
fraction 1.0 the claimed identity fails: `2 ^ 24 + 1` is not binary32
representable, the conversion of the difference rounds it to
`2 ^ 24 = 16777216`, so the program adds 16777216 nanoseconds while
exact truncation of `1 * 16777217` would add 16777217. -/
theorem interpolateTimeStamp_total_ce :
    totalNanoseconds (InterpolateTimeStamp ⟨⟨0, 0⟩⟩ ⟨⟨0, 16777217⟩⟩ 1 0) ≠
      totalNanoseconds ⟨⟨0, 0⟩⟩ +
        TimeStampExactDiff ⟨⟨0, 0⟩⟩ ⟨⟨0, 16777217⟩⟩ := by
  decide

/-- C5, amended: for all timestamps and every dyadic fraction
`mi * 2 ^ ei`, including fractions outside `[0, 1]` (no clamping), the
interpolated timestamp denotes the instant `a + d` where `d` is the
binary32 product of the fraction with the binary32 rounding of
`TimeStampExactDiff a b`, truncated toward zero. -/
theorem interpolateTimeStamp_total_eq_float_delta
    (a b : SystemTimeStamp) (mi ei : Int) :
    totalNanoseconds (InterpolateTimeStamp a b mi ei) =
      totalNanoseconds a + floatScale (TimeStampExactDiff a b) mi ei :=
  totalNanoseconds_interpolate a b mi ei

/-- C1, counterexample, two failures of the claim at fraction 1.0.
With `a = (1, 0)` and `b = (0, 500000000)` (both normalized; the
difference `-500000000 = -1953125 * 2 ^ 8` is binary32 representable,
so no rounding is involved) the result is `(1, -500000000)`, differing
from `b` in both fields: the renormalization at lines 92-96 does not
handle a negative nanoseconds field.  With `a = (0, 0)` and
`b = (0, 16777217)` the difference `2 ^ 24 + 1` is rounded to `2 ^ 24`
by the `long long` to `float` conversion, so the result is
`(0, 16777216) ≠ b`. -/
theorem interpolateTimeStamp_one_ne_endpoint :
    InterpolateTimeStamp ⟨⟨1, 0⟩⟩ ⟨⟨0, 500000000⟩⟩ 1 0 ≠ ⟨⟨0, 500000000⟩⟩ ∧
    InterpolateTimeStamp ⟨⟨0, 0⟩⟩ ⟨⟨0, 16777217⟩⟩ 1 0 ≠ ⟨⟨0, 16777217⟩⟩ := by
  decide

/-- C1, amended: for normalized `a` and `b` whose difference is exactly
representable in binary32 (`s * 2 ^ k` with `|s| < 2 ^ 24`),
interpolation at fraction 0.0 returns exactly `a`; interpolation at
fraction 1.0 denotes the same instant as `b`, and equals `b` in both
fields whenever `TimeStampExactDiff a b ≥ 0`. -/
theorem interpolateTimeStamp_endpoints (a b : SystemTimeStamp)
    (ha : Normalized a) (hb : Normalized b) (s : Int) (k : Nat)
    (hrep : TimeStampExactDiff a b = s * 2 ^ k)
    (hs : s.natAbs < 2 ^ 24) :
    InterpolateTimeStamp a b 0 0 = a ∧
    totalNanoseconds (InterpolateTimeStamp a b 1 0) = totalNanoseconds b ∧
    (0 ≤ TimeStampExactDiff a b → InterpolateTimeStamp a b 1 0 = b) := by
  have hδ : floatScale (TimeStampExactDiff a b) 1 0 = TimeStampExactDiff a b := by
    rw [hrep]
    exact floatScale_one_exact s k hs
  obtain ⟨⟨as, ans⟩⟩ := a
  obtain ⟨⟨bs, bns⟩⟩ := b
  unfold Normalized at ha hb
  dsimp only at ha hb
  refine ⟨?_, ?_, ?_⟩
  · unfold InterpolateTimeStamp
    dsimp only
    rw [floatScale_zero, Int.zero_tdiv, Int.zero_tmod]
    rw [if_neg (by omega)]
    simp only [SystemTimeStamp.mk.injEq, Timespec.mk.injEq]
    omega
  · have h := totalNanoseconds_interpolate ⟨⟨as, ans⟩⟩ ⟨⟨bs, bns⟩⟩ 1 0
    rw [hδ] at h
    rw [h]
    unfold totalNanoseconds TimeStampExactDiff
    dsimp only
    ring
  · intro hdiff
    unfold InterpolateTimeStamp
    rw [hδ]
    set D := TimeStampExactDiff ⟨⟨as, ans⟩⟩ ⟨⟨bs, bns⟩⟩ with hD
    have hDval : D = (bns - ans) + (bs - as) * 1000000000 := by
      rw [hD]; unfold TimeStampExactDiff; dsimp only
    have h := Int.tdiv_add_tmod D 1000000000
    have hr0 : 0 ≤ D.tmod 1000000000 := Int.tmod_nonneg 1000000000 hdiff
    have hr1 : D.tmod 1000000000 < 1000000000 :=
      Int.tmod_lt_of_pos D (by norm_num)
    dsimp only
    split <;>
      simp only [SystemTimeStamp.mk.injEq, Timespec.mk.injEq] <;> omega

/-- C1, witness at `a = (0, 0)`, `b = (1, 0)`: the difference
`10 ^ 9 = 1953125 * 2 ^ 9` is binary32 representable. -/
theorem interpolateTimeStamp_endpoints_witness :
    InterpolateTimeStamp ⟨⟨0, 0⟩⟩ ⟨⟨1, 0⟩⟩ 0 0 = ⟨⟨0, 0⟩⟩ ∧
    InterpolateTimeStamp ⟨⟨0, 0⟩⟩ ⟨⟨1, 0⟩⟩ 1 0 = ⟨⟨1, 0⟩⟩ :=
  ⟨(interpolateTimeStamp_endpoints ⟨⟨0, 0⟩⟩ ⟨⟨1, 0⟩⟩ (by decide) (by decide)
      1953125 9 (by decide) (by decide)).1,
    (interpolateTimeStamp_endpoints ⟨⟨0, 0⟩⟩ ⟨⟨1, 0⟩⟩ (by decide) (by decide)
      1953125 9 (by decide) (by decide)).2.2 (by decide)⟩

/-- C9, counterexample: `a = (1, 0)` and `b = (0, 500000000)` are both
normalized, yet interpolation at fraction `0.5 = 1 * 2 ^ (-1)` yields
nanoseconds field `-250000000`, outside `[0, 10^9)`: the scaled delta
is negative and the code renormalizes only an overflowing nanoseconds
field. -/
theorem interpolateTimeStamp_not_normalized_ce :
    Normalized ⟨⟨1, 0⟩⟩ ∧ Normalized ⟨⟨0, 500000000⟩⟩ ∧
    ¬ Normalized (InterpolateTimeStamp ⟨⟨1, 0⟩⟩ ⟨⟨0, 500000000⟩⟩ 1 (-1)) := by
  decide

/-- C9, amended: when `a` is normalized and the scaled delta of line 89
is nonnegative (in particular whenever the fraction lies in `[0, 1]` and
`b` is not earlier than `a`), the interpolated timestamp is normalized;
with a negative scaled delta the nanoseconds field can be negative. -/
theorem interpolateTimeStamp_normalized_of_nonneg_delta
    (a b : SystemTimeStamp) (mi ei : Int)
    (ha : Normalized a)
    (hd : 0 ≤ floatScale (TimeStampExactDiff a b) mi ei) :
    Normalized (InterpolateTimeStamp a b mi ei) := by
  obtain ⟨⟨as, ans⟩⟩ := a
  obtain ⟨⟨bs, bns⟩⟩ := b
  unfold Normalized at ha ⊢
  dsimp only at ha
  unfold InterpolateTimeStamp
  set d := floatScale (TimeStampExactDiff ⟨⟨as, ans⟩⟩ ⟨⟨bs, bns⟩⟩) mi ei
    with hdd
  have hr0 : 0 ≤ d.tmod 1000000000 := Int.tmod_nonneg 1000000000 hd
  have hr1 : d.tmod 1000000000 < 1000000000 :=
    Int.tmod_lt_of_pos d (by norm_num)
  dsimp only
  split <;> dsimp only <;> omega

/-- C9, witness at `a = (0, 999999999)`, `b = (2, 5)`, fraction 0.5:
the difference 1000000006 rounds to the binary32 value 1000000000,
whose half is 500000000. -/
theorem interpolateTimeStamp_normalized_witness :
    Normalized (InterpolateTimeStamp ⟨⟨0, 999999999⟩⟩ ⟨⟨2, 5⟩⟩ 1 (-1)) :=
  interpolateTimeStamp_normalized_of_nonneg_delta ⟨⟨0, 999999999⟩⟩ ⟨⟨2, 5⟩⟩
    1 (-1) (by decide) (by decide)

/-- C3: with zenity available, exit code 0 yields Yes (for YesNo) and Ok
(for OkCancel), any nonzero exit code yields No and Cancel respectively,
and the exit code has no effect on the result of the informational kinds
Info, Warning and Error. -/
theorem systemDialog_exit_code_mapping
    (console : SystemDialogType → String → String → SystemDialogResult)
    (title message : String) (code : Int) (hcode : code ≠ 0) :
    SystemDialog (fun _ => 0) console true SDT_YES_NO title message =
      SDR_YES ∧
    SystemDialog (fun _ => code) console true SDT_YES_NO title message =
      SDR_NO ∧
    SystemDialog (fun _ => 0) console true SDT_OK_CANCEL title message =
      SDR_OK ∧
    SystemDialog (fun _ => code) console true SDT_OK_CANCEL title message =
      SDR_CANCEL ∧
    SystemDialog (fun _ => code) console true SDT_INFO title message =
      SystemDialog (fun _ => 0) console true SDT_INFO title message ∧
    SystemDialog (fun _ => code) console true SDT_WARNING title message =
      SystemDialog (fun _ => 0) console true SDT_WARNING title message ∧
    SystemDialog (fun _ => code) console true SDT_ERROR title message =
      SystemDialog (fun _ => 0) console true SDT_ERROR title message := by
  refine ⟨?_, ?_, ?_, ?_, ?_, ?_, ?_⟩ <;> simp [SystemDialog, hcode]

/-- C3, witness at exit code 1. -/
theorem systemDialog_exit_code_mapping_witness :
    SystemDialog (fun _ => 0) (fun _ _ _ => SDR_OK) true SDT_YES_NO "t" "m" =
      SDR_YES ∧
    SystemDialog (fun _ => 1) (fun _ _ _ => SDR_OK) true SDT_YES_NO "t" "m" =
      SDR_NO ∧
    SystemDialog (fun _ => 0) (fun _ _ _ => SDR_OK) true SDT_OK_CANCEL "t" "m" =
      SDR_OK ∧
    SystemDialog (fun _ => 1) (fun _ _ _ => SDR_OK) true SDT_OK_CANCEL "t" "m" =
      SDR_CANCEL ∧
    SystemDialog (fun _ => 1) (fun _ _ _ => SDR_OK) true SDT_INFO "t" "m" =
      SystemDialog (fun _ => 0) (fun _ _ _ => SDR_OK) true SDT_INFO "t" "m" ∧
    SystemDialog (fun _ => 1) (fun _ _ _ => SDR_OK) true SDT_WARNING "t" "m" =
      SystemDialog (fun _ => 0) (fun _ _ _ => SDR_OK) true SDT_WARNING "t" "m" ∧
    SystemDialog (fun _ => 1) (fun _ _ _ => SDR_OK) true SDT_ERROR "t" "m" =
      SystemDialog (fun _ => 0) (fun _ _ _ => SDR_OK) true SDT_ERROR "t" "m" :=
  systemDialog_exit_code_mapping (fun _ _ _ => SDR_OK) "t" "m" 1 (by decide)

/-- C4: the save directory computed by `GetSaveDir` has exactly the
precedence the specification describes: a non-empty data-home variable
with `/colobot` appended, else a non-empty home variable with
`/.local/share/colobot` appended, else the built-in default. -/
theorem getSaveDir_matches_spec (getenv : String → Option String)
    (defaultSaveDir : String) :
    GetSaveDir getenv defaultSaveDir =
      ResolveSaveDirectorySpec getenv defaultSaveDir := by
  unfold GetSaveDir ResolveSaveDirectorySpec IsSetNonEmpty GetEnvVar
  cases hx : getenv "XDG_DATA_HOME" with
  | none =>
    cases hh : getenv "HOME" with
    | none => simp
    | some h =>
      by_cases hhe : h = "" <;> simp [hhe]
  | some v =>
    by_cases hve : v = ""
    · cases hh : getenv "HOME" with
      | none => simp [hve]
      | some h => by_cases hhe : h = "" <;> simp [hve, hhe]
    · simp [hve]

/-- C6: environment lookup is total: an unset variable yields the empty
string (no error is possible), and a set variable yields its value. -/
theorem getEnvVar_unset_empty_set_value (getenv : String → Option String)
    (name : String) :
    (getenv name = none → GetEnvVar getenv name = "") ∧
    (∀ v : String, getenv name = some v → GetEnvVar getenv name = v) := by
  constructor
  · intro h
    unfold GetEnvVar
    rw [h]
  · intro v h
    unfold GetEnvVar
    rw [h]

/-- C6, witness: an unset variable and a set one in a concrete
environment. -/
theorem getEnvVar_unset_empty_set_value_witness :
    GetEnvVar (fun n => if n = "HOME" then some "/home/u" else none)
      "XDG_DATA_HOME" = "" ∧
    GetEnvVar (fun n => if n = "HOME" then some "/home/u" else none)
      "HOME" = "/home/u" :=
  ⟨(getEnvVar_unset_empty_set_value
      (fun n => if n = "HOME" then some "/home/u" else none)
      "XDG_DATA_HOME").1 (by simp),
    (getEnvVar_unset_empty_set_value
      (fun n => if n = "HOME" then some "/home/u" else none)
      "HOME").2 "/home/u" (by simp)⟩

/-- C7: `OpenPath` and `OpenWebsite` are total (no exception) and return
`false` exactly when the single `xdg-open` invocation exits nonzero, and
`true` exactly when it exits with code 0. -/
theorem openPath_openWebsite_exit_code (system : String → Int)
    (path url : String) :
    ((OpenPath system path).1 = false ↔ system (OpenPathCommand path) ≠ 0) ∧
    ((OpenPath system path).1 = true ↔ system (OpenPathCommand path) = 0) ∧
    ((OpenWebsite system url).1 = false ↔
      system (OpenWebsiteCommand url) ≠ 0) ∧
    ((OpenWebsite system url).1 = true ↔
      system (OpenWebsiteCommand url) = 0) := by
  unfold OpenPath OpenWebsite
  by_cases hp : system (OpenPathCommand path) = 0 <;>
    by_cases hw : system (OpenWebsiteCommand url) = 0 <;>
      simp [hp, hw]

/-- C10: `OpenPath` and `OpenWebsite` build the identical external
command and return the same boolean for every exit code; they differ
only in the text of the logged error message. -/
theorem openPath_openWebsite_equivalent (system : String → Int)
    (s : String) :
    OpenPathCommand s = OpenWebsiteCommand s ∧
    (OpenPath system s).1 = (OpenWebsite system s).1 := by
  refine ⟨rfl, ?_⟩
  unfold OpenPath OpenWebsite OpenPathCommand OpenWebsiteCommand
  by_cases h : system ("xdg-open \"" ++ s ++ "\"") = 0 <;> simp [h]
